import Mathlib

/-!
Verification of the voting-data retrieval and summarization client
(`get_voting_data` / `get_voting_summary` in `api-call-example.py`).

The Python code is shallowly embedded: JSON values become an inductive
`Json` type (numbers are modelled as integers, since the code only copies
numeric values verbatim and never computes with them), dictionary access
and other fallible Python primitives become `Except PyExc` computations,
and the two HTTP interactions of each public operation become explicit
`HttpOutcome` parameters.  The catch-all `except` blocks of the source are
modelled by mapping the raised `PyExc` to the corresponding formatted
error string.
-/

/-- Exceptions that the embedded Python fragments can raise. -/
inductive PyExc where
  | keyError (k : String)
  | typeError
  | attributeError
  | indexError
deriving Repr, DecidableEq

/-- Embedding of Python `str(e)` for the exceptions we model (the exact
text only matters in that distinct exceptions of the same kind with the
same key render identically, which is how the source behaves). -/
def excStr : PyExc → String
  | .keyError k => "\x27" ++ k ++ "\x27"
  | .typeError => "argument of type is not iterable"
  | .attributeError => "object has no attribute get or lower"
  | .indexError => "list index out of range"

/-- Message produced by the catch-all handler of both public operations. -/
def unexpectedMsg (e : PyExc) : String :=
  "An unexpected error occurred: " ++ excStr e

/-- JSON values, as decoded by `response.json()`. -/
inductive Json where
  | null
  | bool (b : Bool)
  | str (s : String)
  | num (n : Int)
  | arr (elems : List Json)
  | obj (fields : List (String × Json))
deriving Repr

/-- Python truthiness of a decoded JSON value. -/
def Json.truthy : Json → Bool
  | .null => false
  | .bool b => b
  | .str s => !s.toList.isEmpty
  | .num n => n != 0
  | .arr xs => !xs.isEmpty
  | .obj kvs => !kvs.isEmpty

/-- Embedding of the Python subscript `x[k]` for a string key: a lookup in
a dictionary, `KeyError` when absent, `TypeError` on any non-dictionary. -/
def Json.getItem : Json → String → Except PyExc Json
  | .obj kvs, k =>
    match List.lookup k kvs with
    | some v => Except.ok v
    | none => Except.error (PyExc.keyError k)
  | _, _ => Except.error PyExc.typeError

/-- Embedding of Python `x.get(k, d)`: only dictionaries have `get`, any
other receiver raises `AttributeError`. -/
def pyGet : Json → String → Json → Except PyExc Json
  | .obj kvs, k, d => Except.ok ((List.lookup k kvs).getD d)
  | _, _, _ => Except.error PyExc.attributeError

/-- Embedding of Python `x.lower()`: only strings have `lower`. -/
def pyLowerStr : Json → Except PyExc String
  | .str s => Except.ok (String.mk (s.toList.map Char.toLower))
  | _ => Except.error PyExc.attributeError

/-- Embedding of the iteration `for v in x`: lists yield their elements,
dictionaries their keys, strings their characters; everything else raises
`TypeError`. -/
def iterElems : Json → Except PyExc (List Json)
  | .arr xs => Except.ok xs
  | .obj kvs => Except.ok (kvs.map (fun kv => Json.str kv.1))
  | .str s => Except.ok (s.toList.map (fun c => Json.str (String.mk [c])))
  | _ => Except.error PyExc.typeError

/-- Embedding of Python `x[0]` on a decoded JSON value. -/
def pyIndexZero : Json → Except PyExc Json
  | .arr [] => Except.error PyExc.indexError
  | .arr (x :: _) => Except.ok x
  | .str s =>
    match s.toList with
    | [] => Except.error PyExc.indexError
    | c :: _ => Except.ok (Json.str (String.mk [c]))
  | _ => Except.error PyExc.typeError

/-- Test whether the first list starts the second one. -/
def leadsWith : List Char → List Char → Bool
  | [], _ => true
  | _ :: _, [] => false
  | a :: as, b :: bs => a == b && leadsWith as bs

/-- Substring occurrence test on character lists: embedding of the
Python containment test `needle in hay` on strings. -/
def occursInList (needle : List Char) : List Char → Bool
  | [] => needle.isEmpty
  | c :: t => leadsWith needle (c :: t) || occursInList needle t

/-- Embedding of the Python membership test `k in x` for a string `k`:
key containment for dictionaries, substring test for strings, element
membership for lists, `TypeError` otherwise. -/
def pyInStr (k : String) : Json → Except PyExc Bool
  | .obj kvs => Except.ok (List.lookup k kvs).isSome
  | .arr xs => Except.ok (xs.any (fun j => match j with | .str s => s == k | _ => false))
  | .str s => Except.ok (occursInList k.toList s.toList)
  | _ => Except.error PyExc.typeError

/-- The single-quote character on which `get_voting_summary` splits. -/
def quoteChar : Char := Char.ofNat 39

/-- Lower-casing of a character list (embedding of `str.lower`). -/
def lowerChars (cs : List Char) : List Char := cs.map Char.toLower

/-- Whitespace trimming at both ends (embedding of `str.strip`). -/
def stripChars (cs : List Char) : List Char :=
  (((cs.dropWhile Char.isWhitespace).reverse).dropWhile Char.isWhitespace).reverse

/-- Embedding of Python `s.split(sep)` for a one-character separator. -/
def pySplit (sep : Char) : List Char → List (List Char)
  | [] => [[]]
  | c :: t =>
    if c == sep then [] :: pySplit sep t
    else
      match pySplit sep t with
      | [] => [[c]]
      | h :: rest => (c :: h) :: rest

/-- Embedding of Python list indexing `xs[i]`, raising `IndexError` when
the index is out of range. -/
def pyIndexAt (xs : List (List Char)) (i : Nat) : Except PyExc (List Char) :=
  match xs.get? i with
  | some v => Except.ok v
  | none => Except.error PyExc.indexError

/-- Whether a character list contains the single-quote character
(embedding of the Python test `"\x27" in proposal_name`). -/
def hasQuote (cs : List Char) : Bool := cs.any (fun c => c == quoteChar)

/-- One left-to-right, non-overlapping removal pass of a non-empty
pattern, fuelled by the length of the scanned list (the fuel is always
sufficient because every step consumes at least one character). -/
def removeAllGo (pat : List Char) : Nat → List Char → List Char
  | _, [] => []
  | 0, s => s
  | n + 1, c :: t =>
    if !pat.isEmpty && leadsWith pat (c :: t) then
      removeAllGo pat n (t.drop (pat.length - 1))
    else c :: removeAllGo pat n t

/-- Embedding of Python `s.replace(pat, "")` for a non-empty `pat`:
removes every non-overlapping occurrence, scanning left to right. -/
def removeAll (pat s : List Char) : List Char := removeAllGo pat s.length s

/-- The literal pattern removed from unquoted proposal names. -/
def fedPat : List Char := "federal proposals:".toList

/-- Embedding of the search-term extraction step of `get_voting_summary`
(lines 157-161 of the source): on a quoted name, `split("\x27")[1]` then
`lower` then `strip`; otherwise `lower`, remove `"federal proposals:"`,
then `strip`. -/
def extractSearchTerm (pn : String) : Except PyExc String :=
  if hasQuote pn.toList then
    match pyIndexAt (pySplit quoteChar pn.toList) 1 with
    | Except.error e => Except.error e
    | Except.ok part => Except.ok (String.mk (stripChars (lowerChars part)))
  else
    Except.ok (String.mk (stripChars (removeAll fedPat (lowerChars pn.toList))))

/-- Outcome of one HTTP interaction (`requests.get` + `raise_for_status`
+ `.json()`): a transport failure (`requests.exceptions.RequestException`),
a JSON-decoding failure (`json.JSONDecodeError`), or a decoded body. -/
inductive HttpOutcome where
  | transportError (msg : String)
  | badJson (msg : String)
  | ok (body : Json)

/-- One normalized catalog entry, as assembled by `get_voting_data`
(lines 64-70 of the source).  Values are kept as raw JSON values, exactly
as `dict.get` returns them. -/
structure ResourceDescriptor where
  date : Json
  description : Json
  download_url : Json
  format : Json
  last_modified : Json
deriving Repr

/-- The result envelope of `get_voting_data`. -/
structure CatalogResult where
  success : Bool
  error : Option String
  data : List ResourceDescriptor
deriving Repr

/-- Embedding of the descriptor construction for one resource (lines
64-70): each field is `resource.get(key, sentinel)`, with the English
description read from `resource.get("description", {}).get("en", ...)`. -/
def buildDescriptor (r : Json) : Except PyExc ResourceDescriptor :=
  match pyGet r "coverage" (Json.str "No date available") with
  | Except.error e => Except.error e
  | Except.ok date =>
    match pyGet r "description" (Json.obj []) with
    | Except.error e => Except.error e
    | Except.ok dv =>
      match pyGet dv "en" (Json.str "No description available") with
      | Except.error e => Except.error e
      | Except.ok desc =>
        match pyGet r "download_url" (Json.str "No URL available") with
        | Except.error e => Except.error e
        | Except.ok url =>
          match pyGet r "format" (Json.str "Unknown format") with
          | Except.error e => Except.error e
          | Except.ok fmt =>
            match pyGet r "last_modified" (Json.str "Unknown") with
            | Except.error e => Except.error e
            | Except.ok lm => Except.ok ⟨date, desc, url, fmt, lm⟩

/-- Embedding of the descriptor loop of `get_voting_data`: descriptors
accumulate one by one; an exception stops the loop, keeping the partial
list already appended to `result["data"]`. -/
def processResources : List Json → List ResourceDescriptor →
    List ResourceDescriptor × Option PyExc
  | [], acc => (acc, none)
  | r :: rs, acc =>
    match buildDescriptor r with
    | Except.error e => (acc, some e)
    | Except.ok d => processResources rs (acc ++ [d])

/-- Embedding of `data["result"]["resources"]` followed by the start of
iteration over it. -/
def getResources (data : Json) : Except PyExc (List Json) :=
  match data.getItem "result" with
  | Except.error e => Except.error e
  | Except.ok r =>
    match r.getItem "resources" with
    | Except.error e => Except.error e
    | Except.ok rr => iterElems rr

/-- Embedding of `get_voting_data` (lines 5-83 of the source), as a
function of the outcome of its single HTTP request.  The mutable
`result` dictionary of the source is threaded explicitly: in particular
`result["success"] = True` happens before `data["result"]["resources"]`
is read, so a failure after that point leaves `success` at `True` while
also setting `error`. -/
def get_voting_data (resp : HttpOutcome) : CatalogResult :=
  match resp with
  | HttpOutcome.transportError m =>
    { success := false, error := some ("Error making API request: " ++ m), data := [] }
  | HttpOutcome.badJson m =>
    { success := false, error := some ("Error parsing JSON response: " ++ m), data := [] }
  | HttpOutcome.ok body =>
    match body.getItem "success" with
    | Except.error e => { success := false, error := some (unexpectedMsg e), data := [] }
    | Except.ok sv =>
      if sv.truthy then
        match getResources body with
        | Except.error e => { success := true, error := some (unexpectedMsg e), data := [] }
        | Except.ok rs =>
          match processResources rs [] with
          | (ds, none) => { success := true, error := none, data := ds }
          | (ds, some e) => { success := true, error := some (unexpectedMsg e), data := ds }
      else { success := false, error := some "API request was not successful", data := [] }

/-- Total lookup-or-default on a JSON value: what `resource.get(k, d)`
returns when the receiver is a dictionary, and the default otherwise.
Used to state theorems about well-formed resources. -/
def fieldD (r : Json) (k : String) (d : Json) : Json :=
  match r with
  | Json.obj kvs => (List.lookup k kvs).getD d
  | _ => d

/-- The descriptor produced for a well-formed resource: every field is
the source value when present and the documented sentinel otherwise. -/
def pureDescriptor (r : Json) : ResourceDescriptor :=
  { date := fieldD r "coverage" (Json.str "No date available"),
    description := fieldD (fieldD r "description" (Json.obj []))
      "en" (Json.str "No description available"),
    download_url := fieldD r "download_url" (Json.str "No URL available"),
    format := fieldD r "format" (Json.str "Unknown format"),
    last_modified := fieldD r "last_modified" (Json.str "Unknown") }

/-- A resource entry is well formed when it is an object whose
`description` field, when present, is an object whose `en` field, when
present, is a string — the shape the spec documents for the catalog
endpoint. -/
def wellFormedResource : Json → Bool
  | Json.obj kvs =>
    match List.lookup "description" kvs with
    | none => true
    | some (Json.obj dkvs) =>
      match List.lookup "en" dkvs with
      | none => true
      | some (Json.str _) => true
      | some _ => false
    | some _ => false
  | _ => false

mutual

/-- Structural equality of JSON values (embedding of Python `==` on
decoded JSON data, used for dictionary keys). -/
def Json.beq : Json → Json → Bool
  | Json.null, Json.null => true
  | Json.bool a, Json.bool b => a == b
  | Json.str a, Json.str b => a == b
  | Json.num a, Json.num b => a == b
  | Json.arr a, Json.arr b => Json.beqList a b
  | Json.obj a, Json.obj b => Json.beqFields a b
  | _, _ => false

/-- Pointwise equality of JSON lists. -/
def Json.beqList : List Json → List Json → Bool
  | [], [] => true
  | a :: as, b :: bs => Json.beq a b && Json.beqList as bs
  | _, _ => false

/-- Pointwise equality of JSON object fields. -/
def Json.beqFields : List (String × Json) → List (String × Json) → Bool
  | [], [] => true
  | (k1, v1) :: as, (k2, v2) :: bs => k1 == k2 && Json.beq v1 v2 && Json.beqFields as bs
  | _, _ => false

end

/-- Insertion into a Python dictionary modelled as an association list:
an existing key keeps its position and gets the new value, a new key is
appended at the end — exactly Python 3 dict insertion order. -/
def dictUpsert (kvs : List (Json × Json)) (k v : Json) : List (Json × Json) :=
  if kvs.any (fun kv => Json.beq kv.1 k) then
    kvs.map (fun kv => if Json.beq kv.1 k then (kv.1, v) else kv)
  else kvs ++ [(k, v)]

/-- Lookup with default on a Python dictionary modelled as an
association list (embedding of `d.get(k, default)` for JSON keys). -/
def dictGet (kvs : List (Json × Json)) (k d : Json) : Json :=
  match kvs.find? (fun kv => Json.beq kv.1 k) with
  | some kv => kv.2
  | none => d

/-- Embedding of the dictionary comprehension at line 195 of the source:
`{title["langKey"]: title["text"] for title in vote_info["vorlagenTitel"]}`. -/
def buildTitles : List Json → List (Json × Json) → Except PyExc (List (Json × Json))
  | [], acc => Except.ok acc
  | t :: ts, acc =>
    match t.getItem "langKey" with
    | Except.error e => Except.error e
    | Except.ok k =>
      match t.getItem "text" with
      | Except.error e => Except.error e
      | Except.ok v => buildTitles ts (dictUpsert acc k v)

/-- Embedding of line 166 of the source:
`resource.get("description", {}).get("en", "").lower()`. -/
def descLower (r : Json) : Except PyExc String :=
  match pyGet r "description" (Json.obj []) with
  | Except.error e => Except.error e
  | Except.ok dv =>
    match pyGet dv "en" (Json.str "") with
    | Except.error e => Except.error e
    | Except.ok en => pyLowerStr en

/-- Embedding of the matching loop of `get_voting_summary` (lines
165-175): linear scan, first resource whose lower-cased English
description contains the search term as a substring, stopping there. -/
def findMatching (term : String) : List Json → Except PyExc (Option Json)
  | [] => Except.ok none
  | r :: rs =>
    match descLower r with
    | Except.error e => Except.error e
    | Except.ok d =>
      if occursInList term.toList d.toList then Except.ok (some r)
      else findMatching term rs

/-- The summary dictionary built at lines 198-208 of the source.  Values
are raw JSON values copied verbatim from the detail payload. -/
structure SummaryData where
  title : Json
  date : Json
  accepted : Json
  turnout : Json
  yes_percentage : Json
  yes_votes : Json
  no_votes : Json
  eligible_voters : Json
  all_titles : List (Json × Json)
deriving Repr

/-- The result envelope of `get_voting_summary`. -/
structure SummaryResult where
  success : Bool
  error : Option String
  summary : Option SummaryData
deriving Repr

/-- The envelope every failure path of `get_voting_summary` produces
before `result["success"] = True` has run. -/
def mkErr (m : String) : SummaryResult :=
  { success := false, error := some m, summary := none }

/-- Embedding of the guard at line 190 of the source:
`"schweiz" in voting_results and "vorlagen" in voting_results["schweiz"]`,
with Python short-circuit evaluation. -/
def voteKeysCheck (vr : Json) : Except PyExc Bool :=
  match pyInStr "schweiz" vr with
  | Except.error e => Except.error e
  | Except.ok false => Except.ok false
  | Except.ok true =>
    match vr.getItem "schweiz" with
    | Except.error e => Except.error e
    | Except.ok s => pyInStr "vorlagen" s

/-- Embedding of lines 191-195 of the source: the first proposal object,
its national result sub-object, and the titles dictionary; all evaluated
before `result["success"] = True`. -/
def extractPieces (vr : Json) : Except PyExc (Json × Json × List (Json × Json)) :=
  match vr.getItem "schweiz" with
  | Except.error e => Except.error e
  | Except.ok s =>
    match s.getItem "vorlagen" with
    | Except.error e => Except.error e
    | Except.ok vl =>
      match pyIndexZero vl with
      | Except.error e => Except.error e
      | Except.ok vi =>
        match vi.getItem "resultat" with
        | Except.error e => Except.error e
        | Except.ok nr =>
          match vi.getItem "vorlagenTitel" with
          | Except.error e => Except.error e
          | Except.ok tl =>
            match iterElems tl with
            | Except.error e => Except.error e
            | Except.ok ts =>
              match buildTitles ts [] with
              | Except.error e => Except.error e
              | Except.ok titles => Except.ok (vi, nr, titles)

/-- Embedding of the summary-dictionary literal at lines 198-208,
evaluated in source order after `result["success"] = True`; any missing
key raises, which the caller converts to an unexpected-error envelope
with `success` already `True`. -/
def summaryFields (vr vi nr : Json) (titles : List (Json × Json)) :
    Except PyExc SummaryData :=
  match vr.getItem "abstimmtag" with
  | Except.error e => Except.error e
  | Except.ok date =>
    match vi.getItem "vorlageAngenommen" with
    | Except.error e => Except.error e
    | Except.ok acc =>
      match nr.getItem "stimmbeteiligungInProzent" with
      | Except.error e => Except.error e
      | Except.ok tu =>
        match nr.getItem "jaStimmenInProzent" with
        | Except.error e => Except.error e
        | Except.ok yp =>
          match nr.getItem "jaStimmenAbsolut" with
          | Except.error e => Except.error e
          | Except.ok yv =>
            match nr.getItem "neinStimmenAbsolut" with
            | Except.error e => Except.error e
            | Except.ok nv =>
              match nr.getItem "anzahlStimmberechtigte" with
              | Except.error e => Except.error e
              | Except.ok ev =>
                Except.ok
                  { title := dictGet titles (Json.str "en")
                      (dictGet titles (Json.str "de") (Json.str "Title not available")),
                    date := date, accepted := acc, turnout := tu,
                    yes_percentage := yp, yes_votes := yv, no_votes := nv,
                    eligible_voters := ev, all_titles := titles }

/-- Embedding of the detail-payload extraction of `get_voting_summary`
(lines 189-210): the key guard, the pieces evaluated before the success
flag is set, and the summary fields evaluated after it. -/
def extractPhase (vr : Json) : SummaryResult :=
  match voteKeysCheck vr with
  | Except.error e => mkErr (unexpectedMsg e)
  | Except.ok false => mkErr "Could not find voting results in the data"
  | Except.ok true =>
    match extractPieces vr with
    | Except.error e => mkErr (unexpectedMsg e)
    | Except.ok (vi, nr, titles) =>
      match summaryFields vr vi nr titles with
      | Except.error e => { success := true, error := some (unexpectedMsg e), summary := none }
      | Except.ok sd => { success := true, error := none, summary := some sd }

/-- Embedding of lines 181-210 of the source, from the selected resource
onward: read its `download_url`, fetch it (second HTTP interaction), and
run the extraction on the decoded detail payload. -/
def afterMatch (mr : Json) (detResp : HttpOutcome) : SummaryResult :=
  match mr.getItem "download_url" with
  | Except.error e => mkErr (unexpectedMsg e)
  | Except.ok _u =>
    match detResp with
    | HttpOutcome.transportError m => mkErr ("Error making API request: " ++ m)
    | HttpOutcome.badJson m => mkErr ("Error parsing JSON response: " ++ m)
    | HttpOutcome.ok vr => extractPhase vr

/-- Embedding of `get_voting_summary` (lines 85-219 of the source), as a
function of the proposal name and the outcomes of its two HTTP
interactions (catalog fetch, then detail fetch).  The `if not
matching_resource` test of line 177 is Python truthiness, so a matched
but empty (falsy) resource object is reported as "No voting data found"
exactly like a missing match. -/
def get_voting_summary (pn : String) (catResp detResp : HttpOutcome) : SummaryResult :=
  match catResp with
  | HttpOutcome.transportError m => mkErr ("Error making API request: " ++ m)
  | HttpOutcome.badJson m => mkErr ("Error parsing JSON response: " ++ m)
  | HttpOutcome.ok data =>
    match data.getItem "success" with
    | Except.error e => mkErr (unexpectedMsg e)
    | Except.ok sv =>
      if sv.truthy then
        match extractSearchTerm pn with
        | Except.error e => mkErr (unexpectedMsg e)
        | Except.ok term =>
          match getResources data with
          | Except.error e => mkErr (unexpectedMsg e)
          | Except.ok rs =>
            match findMatching term rs with
            | Except.error e => mkErr (unexpectedMsg e)
            | Except.ok none => mkErr ("No voting data found for proposal: " ++ pn)
            | Except.ok (some mr) =>
              if mr.truthy then afterMatch mr detResp
              else mkErr ("No voting data found for proposal: " ++ pn)
      else mkErr "Failed to retrieve voting data list"

/-- The lower-cased English description a well-formed resource offers to
the matching loop (total version of `descLower`). -/
def enLower (r : Json) : String :=
  match fieldD (fieldD r "description" (Json.obj [])) "en" (Json.str "") with
  | Json.str s => String.mk (lowerChars s.toList)
  | _ => ""

/-- The match predicate of the linear scan: the search term occurs in
the lower-cased English description. -/
def matchesTerm (term : String) (r : Json) : Bool :=
  occursInList term.toList (enLower r).toList

/-- A detail payload that is an object lacking the `schweiz` key, or
whose `schweiz` value is an object lacking the `vorlagen` key — the
shapes claimed to produce the fixed "could not find" error. -/
def noVoteKeys : Json → Bool
  | Json.obj kvs =>
    match List.lookup "schweiz" kvs with
    | none => true
    | some (Json.obj k2) => (List.lookup "vorlagen" k2).isNone
    | some _ => false
  | _ => false

/-- The source title list of a detail payload: the chain
`vr["schweiz"]["vorlagen"][0]["vorlagenTitel"]` as an iterable list,
independent of the rest of the extraction. -/
def sourceTitles (vr : Json) : Except PyExc (List Json) :=
  match vr.getItem "schweiz" with
  | Except.error e => Except.error e
  | Except.ok s =>
    match s.getItem "vorlagen" with
    | Except.error e => Except.error e
    | Except.ok vl =>
      match pyIndexZero vl with
      | Except.error e => Except.error e
      | Except.ok vi =>
        match vi.getItem "vorlagenTitel" with
        | Except.error e => Except.error e
        | Except.ok tl => iterElems tl

/-- A concrete catalog resource whose English description contains the
spec example search term "example title". -/
def exResource : Json :=
  Json.obj [("description", Json.obj [("en", Json.str "Example Title vote")]),
    ("download_url", Json.str "http://example/detail.json")]

/-- A concrete well-formed catalog body with one resource. -/
def exCatBody : Json :=
  Json.obj [("success", Json.bool true),
    ("result", Json.obj [("resources", Json.arr [exResource])])]

/-- A concrete well-formed detail payload with a national result and two
language titles (`en`: "Example", `de`: "Beispiel"). -/
def exDetailGood : Json :=
  Json.obj [("schweiz", Json.obj [("vorlagen", Json.arr
      [Json.obj [("resultat", Json.obj
          [("stimmbeteiligungInProzent", Json.num 45),
           ("jaStimmenInProzent", Json.num 61),
           ("jaStimmenAbsolut", Json.num 1000),
           ("neinStimmenAbsolut", Json.num 640),
           ("anzahlStimmberechtigte", Json.num 5000)]),
        ("vorlagenTitel", Json.arr
          [Json.obj [("langKey", Json.str "en"), ("text", Json.str "Example")],
           Json.obj [("langKey", Json.str "de"), ("text", Json.str "Beispiel")]]),
        ("vorlageAngenommen", Json.bool true)]])]),
    ("abstimmtag", Json.str "20250101")]

/-- The same detail payload with an empty `vorlagenTitel` list. -/
def exDetailNoTitles : Json :=
  Json.obj [("schweiz", Json.obj [("vorlagen", Json.arr
      [Json.obj [("resultat", Json.obj
          [("stimmbeteiligungInProzent", Json.num 45),
           ("jaStimmenInProzent", Json.num 61),
           ("jaStimmenAbsolut", Json.num 1000),
           ("neinStimmenAbsolut", Json.num 640),
           ("anzahlStimmberechtigte", Json.num 5000)]),
        ("vorlagenTitel", Json.arr []),
        ("vorlageAngenommen", Json.bool true)]])]),
    ("abstimmtag", Json.str "20250101")]

/-- The spec example proposal name (full format, quoted title). -/
def exPn : String := "Federal proposals: 1. Popular Initiative \x27Example Title\x27"

/-- The summary produced for `exPn` over `exCatBody` and `exDetailGood`. -/
def exSummary : SummaryData :=
  { title := Json.str "Example", date := Json.str "20250101",
    accepted := Json.bool true, turnout := Json.num 45,
    yes_percentage := Json.num 61, yes_votes := Json.num 1000,
    no_votes := Json.num 640, eligible_voters := Json.num 5000,
    all_titles := [(Json.str "en", Json.str "Example"),
                   (Json.str "de", Json.str "Beispiel")] }

/-- Building a string from an explicit character list and converting back
is the identity. -/
theorem toList_mk (l : List Char) : (String.mk l).toList = l := rfl

/-- Splitting a separator-free list yields a single part. -/
theorem pySplit_no_sep (sep : Char) : ∀ a : List Char, sep ∉ a → pySplit sep a = [a] := by
  intro a
  induction a with
  | nil => intro _; rfl
  | cons c t ih =>
    intro h
    have hc : (c == sep) = false := by
      apply beq_eq_false_iff_ne.mpr
      intro e
      exact h (e ▸ List.mem_cons_self c t)
    have ht : sep ∉ t := fun m => h (List.mem_cons_of_mem _ m)
    simp [pySplit, hc, ih ht]

/-- Splitting a list that starts with a separator-free part followed by
the separator peels off exactly that part. -/
theorem pySplit_append (sep : Char) (r : List Char) :
    ∀ a : List Char, sep ∉ a → pySplit sep (a ++ sep :: r) = a :: pySplit sep r := by
  intro a
  induction a with
  | nil => intro _; simp [pySplit]
  | cons c t ih =>
    intro h
    have hc : (c == sep) = false := by
      apply beq_eq_false_iff_ne.mpr
      intro e
      exact h (e ▸ List.mem_cons_self c t)
    have ht : sep ∉ t := fun m => h (List.mem_cons_of_mem _ m)
    simp [pySplit, hc, ih ht]

/-- A list containing the quote character passes the `hasQuote` test. -/
theorem hasQuote_of_mem {l : List Char} (h : quoteChar ∈ l) : hasQuote l = true := by
  simp only [hasQuote, List.any_eq_true]
  exact ⟨quoteChar, h, by simp⟩

/-- A list without the quote character fails the `hasQuote` test. -/
theorem hasQuote_eq_false {l : List Char} (h : quoteChar ∉ l) : hasQuote l = false := by
  cases hq : hasQuote l
  · rfl
  · exfalso
    simp only [hasQuote, List.any_eq_true] at hq
    obtain ⟨c, hc, he⟩ := hq
    have hce : c = quoteChar := by simpa using he
    exact h (hce ▸ hc)

/-- C5: for every proposal name, the pure search-term extraction step of
`get_voting_summary` yields, when the name decomposes as a quote-free
part, a quote, a quote-free part and a second quote, the part between the
first two quotes lower-cased and trimmed; when the name has no quote at
all, it yields the name lower-cased with the literal substring
"federal proposals:" removed and trimmed; in particular the spec examples
"Federal proposals: 1. Popular Initiative \x27Example Title\x27" and
"Example Title" both yield "example title". -/
theorem c5_search_term_extraction :
    (∀ a b c : List Char, quoteChar ∉ a → quoteChar ∉ b →
      extractSearchTerm (String.mk (a ++ quoteChar :: (b ++ quoteChar :: c)))
        = Except.ok (String.mk (stripChars (lowerChars b)))) ∧
    (∀ s : String, quoteChar ∉ s.toList →
      extractSearchTerm s
        = Except.ok (String.mk (stripChars (removeAll fedPat (lowerChars s.toList))))) ∧
    extractSearchTerm "Federal proposals: 1. Popular Initiative \x27Example Title\x27"
      = Except.ok "example title" ∧
    extractSearchTerm "Example Title" = Except.ok "example title" := by
  refine ⟨?_, ?_, rfl, rfl⟩
  · intro a b c ha hb
    have hq : hasQuote (a ++ quoteChar :: (b ++ quoteChar :: c)) = true :=
      hasQuote_of_mem (List.mem_append_right a (List.mem_cons_self _ _))
    have hsplit : pySplit quoteChar (a ++ quoteChar :: (b ++ quoteChar :: c))
        = a :: b :: pySplit quoteChar c := by
      rw [pySplit_append quoteChar (b ++ quoteChar :: c) a ha,
          pySplit_append quoteChar c b hb]
    simp [extractSearchTerm, toList_mk, hq, hsplit, pyIndexAt]
  · intro s hs
    have hq : hasQuote s.data = false := hasQuote_eq_false hs
    simp [extractSearchTerm, String.toList, hq]

/-- Witness for C5 at the spec example, split as quote-free parts. -/
theorem c5_search_term_extraction_witness :
    extractSearchTerm (String.mk ("Federal proposals: 1. Popular Initiative ".toList
        ++ quoteChar :: ("Example Title".toList ++ quoteChar :: [])))
      = Except.ok (String.mk (stripChars (lowerChars "Example Title".toList))) :=
  c5_search_term_extraction.1 "Federal proposals: 1. Popular Initiative ".toList
    "Example Title".toList [] (by decide) (by decide)

/-- C10: a proposal name with exactly one single-quote does not make the
extraction step fail: splitting on the quote yields exactly two parts,
and the search term is the entire substring after the quote, lower-cased
and trimmed. -/
theorem c10_single_quote_two_parts (a b : List Char)
    (ha : quoteChar ∉ a) (hb : quoteChar ∉ b) :
    pySplit quoteChar (a ++ quoteChar :: b) = [a, b] ∧
    extractSearchTerm (String.mk (a ++ quoteChar :: b))
      = Except.ok (String.mk (stripChars (lowerChars b))) := by
  have hsplit : pySplit quoteChar (a ++ quoteChar :: b) = [a, b] := by
    rw [pySplit_append quoteChar b a ha, pySplit_no_sep quoteChar b hb]
  refine ⟨hsplit, ?_⟩
  have hq : hasQuote (a ++ quoteChar :: b) = true :=
    hasQuote_of_mem (List.mem_append_right a (List.mem_cons_self _ _))
  simp [extractSearchTerm, toList_mk, hq, hsplit, pyIndexAt]

/-- Witness for C10 at a concrete one-quote input. -/
theorem c10_single_quote_two_parts_witness :
    pySplit quoteChar ("Don".toList ++ quoteChar :: "t Stop".toList)
      = ["Don".toList, "t Stop".toList] ∧
    extractSearchTerm (String.mk ("Don".toList ++ quoteChar :: "t Stop".toList))
      = Except.ok (String.mk (stripChars (lowerChars "t Stop".toList))) :=
  c10_single_quote_two_parts "Don".toList "t Stop".toList (by decide) (by decide)

/-- C1 (amended): in each public operation the failure direction of the
envelope invariant holds unconditionally — `success = false` implies the
error is populated and the payload is empty (`data = []`) or absent
(`summary = None`) — and an unpopulated error implies `success = true`;
but `success = true` does not imply an unpopulated error, because an
exception raised after `result["success"] = True` (for instance a
missing `result`/`resources` key) leaves `success` at `True` with
`error` set. -/
theorem c1_envelope_amended :
    (∀ resp : HttpOutcome,
      ((get_voting_data resp).success = false →
        (get_voting_data resp).error.isSome = true ∧ (get_voting_data resp).data = []) ∧
      ((get_voting_data resp).error = none → (get_voting_data resp).success = true)) ∧
    (∀ pn catResp detResp,
      ((get_voting_summary pn catResp detResp).success = false →
        (get_voting_summary pn catResp detResp).error.isSome = true ∧
        (get_voting_summary pn catResp detResp).summary = none) ∧
      ((get_voting_summary pn catResp detResp).error = none →
        (get_voting_summary pn catResp detResp).success = true)) := by
  constructor
  · intro resp
    unfold get_voting_data
    repeat' split
    all_goals constructor <;> intro h <;> simp_all
  · intro pn catResp detResp
    unfold get_voting_summary afterMatch extractPhase mkErr
    repeat' split
    all_goals constructor <;> intro h <;> simp_all

/-- C1 counterexample: a valid catalog body whose `success` flag is true
but which lacks the `result` key makes `get_voting_data` return
`success = true` with a populated `error` — the claim that `error` is
`None` whenever `success` is true is false. -/
theorem c1_envelope_counterexample :
    (get_voting_data (HttpOutcome.ok (Json.obj [("success", Json.bool true)]))).success = true ∧
    (get_voting_data (HttpOutcome.ok (Json.obj [("success", Json.bool true)]))).error
      = some "An unexpected error occurred: \x27result\x27" := ⟨rfl, rfl⟩

/-- Witness for the amended C1 at a concrete transport failure. -/
theorem c1_envelope_amended_witness :
    (get_voting_data (HttpOutcome.transportError "timeout")).error.isSome = true ∧
    (get_voting_data (HttpOutcome.transportError "timeout")).data = [] :=
  (c1_envelope_amended.1 (HttpOutcome.transportError "timeout")).1 rfl

/-- C2 (amended): when the internal catalog fetch of `get_voting_summary`
fails in transport or in JSON parsing, or raises looking up the `success`
flag, the produced error string is identical to the one `get_voting_data`
produces for the same catalog response; but for a catalog response whose
top-level `success` flag is falsy the two differ: `get_voting_summary`
returns the fixed string "Failed to retrieve voting data list" while
`get_voting_data` returns "API request was not successful". -/
theorem c2_error_propagation_amended :
    (∀ pn m detResp,
      (get_voting_summary pn (HttpOutcome.transportError m) detResp).error
        = (get_voting_data (HttpOutcome.transportError m)).error ∧
      (get_voting_summary pn (HttpOutcome.transportError m) detResp).success = false) ∧
    (∀ pn m detResp,
      (get_voting_summary pn (HttpOutcome.badJson m) detResp).error
        = (get_voting_data (HttpOutcome.badJson m)).error ∧
      (get_voting_summary pn (HttpOutcome.badJson m) detResp).success = false) ∧
    (∀ pn detResp body e, Json.getItem body "success" = Except.error e →
      (get_voting_summary pn (HttpOutcome.ok body) detResp).error
        = (get_voting_data (HttpOutcome.ok body)).error) ∧
    (∀ pn detResp body sv, Json.getItem body "success" = Except.ok sv → sv.truthy = false →
      (get_voting_summary pn (HttpOutcome.ok body) detResp).error
        = some "Failed to retrieve voting data list" ∧
      (get_voting_data (HttpOutcome.ok body)).error
        = some "API request was not successful" ∧
      (get_voting_summary pn (HttpOutcome.ok body) detResp).success = false) := by
  refine ⟨fun pn m d => ⟨rfl, rfl⟩, fun pn m d => ⟨rfl, rfl⟩, ?_, ?_⟩
  · intro pn d body e hg
    simp [get_voting_summary, get_voting_data, hg, mkErr]
  · intro pn d body sv hg ht
    simp [get_voting_summary, get_voting_data, hg, ht, mkErr]

/-- C2 counterexample: for the catalog response `{"success": false}` the
error string of `get_voting_summary` is not the error string of
`get_voting_data` — the error is not propagated unchanged. -/
theorem c2_error_propagation_counterexample :
    (get_voting_summary "x" (HttpOutcome.ok (Json.obj [("success", Json.bool false)]))
        (HttpOutcome.ok Json.null)).error = some "Failed to retrieve voting data list" ∧
    (get_voting_data (HttpOutcome.ok (Json.obj [("success", Json.bool false)]))).error
      = some "API request was not successful" ∧
    (get_voting_summary "x" (HttpOutcome.ok (Json.obj [("success", Json.bool false)]))
        (HttpOutcome.ok Json.null)).error
      ≠ (get_voting_data (HttpOutcome.ok (Json.obj [("success", Json.bool false)]))).error :=
  ⟨rfl, rfl, by decide⟩

/-- Witness for the amended C2 at a concrete falsy-flag catalog body. -/
theorem c2_error_propagation_amended_witness :
    (get_voting_summary "x" (HttpOutcome.ok (Json.obj [("success", Json.bool false)]))
        (HttpOutcome.ok Json.null)).error = some "Failed to retrieve voting data list" ∧
    (get_voting_data (HttpOutcome.ok (Json.obj [("success", Json.bool false)]))).error
      = some "API request was not successful" ∧
    (get_voting_summary "x" (HttpOutcome.ok (Json.obj [("success", Json.bool false)]))
        (HttpOutcome.ok Json.null)).success = false :=
  c2_error_propagation_amended.2.2.2 "x" (HttpOutcome.ok Json.null)
    (Json.obj [("success", Json.bool false)]) (Json.bool false) rfl rfl

/-- C3 (amended): on a valid JSON catalog body whose `success` flag is
present and falsy, `get_voting_data` returns `success = false` with the
fixed message "API request was not successful" (distinct from every
transport-failure message); but when the flag is absent the lookup
raises `KeyError` and the catch-all produces the unexpected-error
message instead of the fixed one. -/
theorem c3_flag_error_amended :
    (∀ body sv, Json.getItem body "success" = Except.ok sv → sv.truthy = false →
      (get_voting_data (HttpOutcome.ok body)).success = false ∧
      (get_voting_data (HttpOutcome.ok body)).error = some "API request was not successful" ∧
      (get_voting_data (HttpOutcome.ok body)).data = []) ∧
    (∀ kvs, List.lookup "success" kvs = none →
      (get_voting_data (HttpOutcome.ok (Json.obj kvs))).success = false ∧
      (get_voting_data (HttpOutcome.ok (Json.obj kvs))).error
        = some (unexpectedMsg (PyExc.keyError "success"))) ∧
    (∀ m : String, "API request was not successful" ≠ "Error making API request: " ++ m) := by
  refine ⟨?_, ?_, ?_⟩
  · intro body sv hg ht
    simp [get_voting_data, hg, ht]
  · intro kvs h
    simp [get_voting_data, Json.getItem, h]
  · intro m h
    have h1 : "API request was not successful".toList.head?
        = ("Error making API request: " ++ m).toList.head? :=
      congrArg (fun s => s.toList.head?) h
    have h2 : ("Error making API request: " ++ m).toList.head? = some 'E' := rfl
    rw [h2] at h1
    exact absurd h1 (by decide)

/-- C3 counterexample: the valid JSON body `{}` has no `success` flag,
and `get_voting_data` then reports the catch-all message, not the fixed
"API request was not successful" one. -/
theorem c3_flag_error_counterexample :
    (get_voting_data (HttpOutcome.ok (Json.obj []))).error
      = some "An unexpected error occurred: \x27success\x27" ∧
    (get_voting_data (HttpOutcome.ok (Json.obj []))).error
      ≠ some "API request was not successful" := ⟨rfl, by decide⟩

/-- Witness for the amended C3 at the body `{"success": false}`. -/
theorem c3_flag_error_amended_witness :
    (get_voting_data (HttpOutcome.ok (Json.obj [("success", Json.bool false)]))).success = false ∧
    (get_voting_data (HttpOutcome.ok (Json.obj [("success", Json.bool false)]))).error
      = some "API request was not successful" ∧
    (get_voting_data (HttpOutcome.ok (Json.obj [("success", Json.bool false)]))).data = [] :=
  c3_flag_error_amended.1 (Json.obj [("success", Json.bool false)]) (Json.bool false) rfl rfl

/-- A list starts with itself. -/
theorem leadsWith_self : ∀ l : List Char, leadsWith l l = true := by
  intro l
  induction l with
  | nil => rfl
  | cons c t ih => simp [leadsWith, ih]

/-- A needle occurs in any list that ends with it. -/
theorem occursIn_append_self (n x : List Char) : occursInList n (x ++ n) = true := by
  induction x with
  | nil =>
    cases n with
    | nil => rfl
    | cons c t => simp [occursInList, leadsWith_self]
  | cons c t ih => simp [occursInList, ih]

/-- A well-formed resource never raises while its descriptor is built,
and the result substitutes the documented sentinel for each missing
field. -/
theorem buildDescriptor_wf (r : Json) (h : wellFormedResource r = true) :
    buildDescriptor r = Except.ok (pureDescriptor r) := by
  cases r with
  | obj kvs =>
    simp only [wellFormedResource] at h
    unfold buildDescriptor pureDescriptor
    simp only [pyGet, fieldD]
    cases hd : List.lookup "description" kvs with
    | none => simp [hd]
    | some dv =>
      rw [hd] at h
      cases dv with
      | obj dkvs => simp [hd]
      | null => simp at h
      | bool b => simp at h
      | str s => simp at h
      | num n => simp at h
      | arr xs => simp at h
  | null => simp [wellFormedResource] at h
  | bool b => simp [wellFormedResource] at h
  | str s => simp [wellFormedResource] at h
  | num n => simp [wellFormedResource] at h
  | arr xs => simp [wellFormedResource] at h

/-- Over well-formed resources the descriptor loop never raises and maps
each resource to its pure descriptor, preserving order. -/
theorem processResources_clean : ∀ (rs : List Json) (acc : List ResourceDescriptor),
    (∀ r ∈ rs, wellFormedResource r = true) →
    processResources rs acc = (acc ++ rs.map pureDescriptor, none) := by
  intro rs
  induction rs with
  | nil => intro acc _; simp [processResources]
  | cons r rest ih =>
    intro acc h
    have hr : wellFormedResource r = true := h r (List.mem_cons_self r rest)
    have hrest : ∀ x ∈ rest, wellFormedResource x = true :=
      fun x hx => h x (List.mem_cons_of_mem _ hx)
    simp [processResources, buildDescriptor_wf r hr, ih (acc ++ [pureDescriptor r]) hrest]

/-- C6: for every well-formed catalog body (truthy `success` flag,
`result.resources` an array of well-formed resource objects),
`get_voting_data` returns `success = true` with no error and a
descriptor list that is exactly the source array mapped in order through
`pureDescriptor` — same length, same order, each missing field replaced
by its documented sentinel (the trailing conjuncts make the five
sentinel substitutions explicit). -/
theorem c6_wellformed_catalog_mapping (body sv res : Json) (rs : List Json)
    (h1 : Json.getItem body "success" = Except.ok sv)
    (h2 : sv.truthy = true)
    (h3 : Json.getItem body "result" = Except.ok res)
    (h4 : Json.getItem res "resources" = Except.ok (Json.arr rs))
    (h5 : ∀ r ∈ rs, wellFormedResource r = true) :
    (get_voting_data (HttpOutcome.ok body)
        = { success := true, error := none, data := rs.map pureDescriptor } ∧
      (get_voting_data (HttpOutcome.ok body)).data.length = rs.length) ∧
    (∀ kvs, List.lookup "coverage" kvs = none →
      (pureDescriptor (Json.obj kvs)).date = Json.str "No date available") ∧
    (∀ kvs, List.lookup "description" kvs = none →
      (pureDescriptor (Json.obj kvs)).description = Json.str "No description available") ∧
    (∀ kvs, List.lookup "download_url" kvs = none →
      (pureDescriptor (Json.obj kvs)).download_url = Json.str "No URL available") ∧
    (∀ kvs, List.lookup "format" kvs = none →
      (pureDescriptor (Json.obj kvs)).format = Json.str "Unknown format") ∧
    (∀ kvs, List.lookup "last_modified" kvs = none →
      (pureDescriptor (Json.obj kvs)).last_modified = Json.str "Unknown") := by
  refine ⟨?_, ?_, ?_, ?_, ?_, ?_⟩
  · have hmain : get_voting_data (HttpOutcome.ok body)
        = { success := true, error := none, data := rs.map pureDescriptor } := by
      simp [get_voting_data, getResources, h1, h2, h3, h4, iterElems,
        processResources_clean rs [] h5]
    exact ⟨hmain, by rw [hmain]; simp⟩
  · intro kvs h; simp [pureDescriptor, fieldD, h]
  · intro kvs h; simp [pureDescriptor, fieldD, h]
  · intro kvs h; simp [pureDescriptor, fieldD, h]
  · intro kvs h; simp [pureDescriptor, fieldD, h]
  · intro kvs h; simp [pureDescriptor, fieldD, h]

/-- Witness for C6 at the concrete example catalog. -/
theorem c6_wellformed_catalog_mapping_witness :
    get_voting_data (HttpOutcome.ok exCatBody)
      = { success := true, error := none, data := [exResource].map pureDescriptor } ∧
    (get_voting_data (HttpOutcome.ok exCatBody)).data.length = [exResource].length :=
  (c6_wellformed_catalog_mapping exCatBody (Json.bool true)
    (Json.obj [("resources", Json.arr [exResource])]) [exResource]
    rfl rfl rfl rfl (by decide)).1

/-- A well-formed resource never raises in the matching loop, and its
scanned description is the total `enLower`. -/
theorem descLower_wf (r : Json) (h : wellFormedResource r = true) :
    descLower r = Except.ok (enLower r) := by
  cases r with
  | obj kvs =>
    simp only [wellFormedResource] at h
    unfold descLower enLower
    simp only [pyGet, fieldD, pyLowerStr, lowerChars]
    cases hd : List.lookup "description" kvs with
    | none => simp [hd]
    | some dv =>
      rw [hd] at h
      cases dv with
      | obj dkvs =>
        have h2 : (match List.lookup "en" dkvs with
          | none => true
          | some (Json.str _) => true
          | some _ => false) = true := h
        cases he : List.lookup "en" dkvs with
        | none => simp [he]
        | some en =>
          rw [he] at h2
          cases en with
          | str s => simp [he]
          | null => simp at h2
          | bool b => simp at h2
          | num n => simp at h2
          | arr xs => simp at h2
          | obj o => simp at h2
      | null => simp at h
      | bool b => simp at h
      | str s => simp at h
      | num n => simp at h
      | arr xs => simp at h
  | null => simp [wellFormedResource] at h
  | bool b => simp [wellFormedResource] at h
  | str s => simp [wellFormedResource] at h
  | num n => simp [wellFormedResource] at h
  | arr xs => simp [wellFormedResource] at h

/-- Over well-formed resources, the matching loop never raises and
returns the first resource (in list order) whose lower-cased English
description contains the search term. -/
theorem findMatching_wf (term : String) : ∀ rs : List Json,
    (∀ r ∈ rs, wellFormedResource r = true) →
    findMatching term rs = Except.ok (List.find? (matchesTerm term) rs) := by
  intro rs
  induction rs with
  | nil => intro _; simp [findMatching]
  | cons r rest ih =>
    intro h
    have hr : wellFormedResource r = true := h r (List.mem_cons_self r rest)
    have hrest : ∀ x ∈ rest, wellFormedResource x = true :=
      fun x hx => h x (List.mem_cons_of_mem _ hx)
    have hfind := ih hrest
    simp only [findMatching, descLower_wf r hr, hfind]
    cases hm : matchesTerm term r with
    | true =>
      have hm2 : occursInList term.data (enLower r).data = true := hm
      simp [hm2, List.find?_cons_of_pos _ hm]
    | false =>
      have hm2 : occursInList term.data (enLower r).data = false := hm
      have hneg : ¬ (matchesTerm term r = true) := by simp [hm]
      simp [hm2, List.find?_cons_of_neg _ hneg]

/-- C7 (amended): over a well-formed catalog the scan is a linear
first-match search on the lower-cased English descriptions; when no
descriptor matches, `get_voting_summary` returns `success = false` with
an error string containing the original proposal name; when the first
match is a truthy (non-empty) resource object, the resolution proceeds
with exactly that resource.  The amendment: a matched resource that is
an empty (falsy) object is reported as "No voting data found" instead of
being selected, because line 177 tests Python truthiness. -/
theorem c7_linear_scan_amended (pn term : String) (body sv : Json) (rs : List Json)
    (detResp : HttpOutcome)
    (h1 : Json.getItem body "success" = Except.ok sv) (h2 : sv.truthy = true)
    (h3 : extractSearchTerm pn = Except.ok term)
    (h4 : getResources body = Except.ok rs)
    (h5 : ∀ r ∈ rs, wellFormedResource r = true) :
    findMatching term rs = Except.ok (List.find? (matchesTerm term) rs) ∧
    (List.find? (matchesTerm term) rs = none →
      get_voting_summary pn (HttpOutcome.ok body) detResp
        = mkErr ("No voting data found for proposal: " ++ pn) ∧
      occursInList pn.toList ("No voting data found for proposal: " ++ pn).toList = true) ∧
    (∀ mr, List.find? (matchesTerm term) rs = some mr → mr.truthy = true →
      get_voting_summary pn (HttpOutcome.ok body) detResp = afterMatch mr detResp) := by
  have hf := findMatching_wf term rs h5
  refine ⟨hf, ?_, ?_⟩
  · intro hnone
    constructor
    · simp [get_voting_summary, h1, h2, h3, h4, hf, hnone]
    · have he : ("No voting data found for proposal: " ++ pn).toList
          = "No voting data found for proposal: ".toList ++ pn.toList := rfl
      rw [he]
      exact occursIn_append_self pn.toList "No voting data found for proposal: ".toList
  · intro mr hsome htr
    simp [get_voting_summary, h1, h2, h3, h4, hf, hsome, htr]

/-- C7 counterexample: with the empty search term (empty proposal name)
and a catalog whose only resource is the empty object, the scan does
find a matching descriptor (the empty object, whose defaulted
description contains the empty term), yet `get_voting_summary` reports
"No voting data found" instead of selecting it — the falsy-object
corner of line 177. -/
theorem c7_linear_scan_counterexample :
    matchesTerm "" (Json.obj []) = true ∧
    findMatching "" [Json.obj []] = Except.ok (some (Json.obj [])) ∧
    get_voting_summary ""
        (HttpOutcome.ok (Json.obj [("success", Json.bool true),
          ("result", Json.obj [("resources", Json.arr [Json.obj []])])]))
        (HttpOutcome.ok Json.null)
      = mkErr "No voting data found for proposal: " := ⟨rfl, rfl, rfl⟩

/-- Witness for the amended C7: on the example catalog the first match
is the example resource and resolution proceeds with it. -/
theorem c7_linear_scan_amended_witness :
    get_voting_summary exPn (HttpOutcome.ok exCatBody) (HttpOutcome.ok exDetailGood)
      = afterMatch exResource (HttpOutcome.ok exDetailGood) :=
  (c7_linear_scan_amended exPn "example title" exCatBody (Json.bool true) [exResource]
      (HttpOutcome.ok exDetailGood) rfl rfl rfl rfl (by decide)).2.2
    exResource rfl rfl

/-- A payload of the claimed missing-keys shape makes the guard of line
190 evaluate to `False` without raising. -/
theorem voteKeysCheck_of_noVoteKeys (dj : Json) (h : noVoteKeys dj = true) :
    voteKeysCheck dj = Except.ok false := by
  cases dj with
  | obj kvs =>
    simp only [noVoteKeys] at h
    unfold voteKeysCheck
    simp only [pyInStr, Json.getItem]
    cases hd : List.lookup "schweiz" kvs with
    | none => simp [hd]
    | some sv =>
      rw [hd] at h
      cases sv with
      | obj k2 =>
        have hv : List.lookup "vorlagen" k2 = none := by
          simpa using h
        simp [hd, hv]
      | null => simp at h
      | bool b => simp at h
      | str s => simp at h
      | num n => simp at h
      | arr xs => simp at h
  | null => simp [noVoteKeys] at h
  | bool b => simp [noVoteKeys] at h
  | str s => simp [noVoteKeys] at h
  | num n => simp [noVoteKeys] at h
  | arr xs => simp [noVoteKeys] at h

/-- C8: when resolution reaches the detail payload and that payload is a
valid JSON object lacking the `schweiz` key, or whose `schweiz` value is
an object lacking the `vorlagen` key, `get_voting_summary` returns
`success = false` with the fixed error "Could not find voting results in
the data" instead of raising. -/
theorem c8_missing_keys_fixed_error (pn term : String) (body sv u : Json) (rs : List Json)
    (mr dj : Json)
    (h1 : Json.getItem body "success" = Except.ok sv) (h2 : sv.truthy = true)
    (h3 : extractSearchTerm pn = Except.ok term)
    (h4 : getResources body = Except.ok rs)
    (h5 : findMatching term rs = Except.ok (some mr))
    (h6 : mr.truthy = true)
    (h7 : Json.getItem mr "download_url" = Except.ok u)
    (h8 : noVoteKeys dj = true) :
    get_voting_summary pn (HttpOutcome.ok body) (HttpOutcome.ok dj)
      = mkErr "Could not find voting results in the data" := by
  have hv : voteKeysCheck dj = Except.ok false := voteKeysCheck_of_noVoteKeys dj h8
  simp [get_voting_summary, afterMatch, extractPhase, h1, h2, h3, h4, h5, h6, h7, hv]

/-- Witness for C8 at a concrete payload lacking the `schweiz` key. -/
theorem c8_missing_keys_fixed_error_witness :
    get_voting_summary exPn (HttpOutcome.ok exCatBody)
        (HttpOutcome.ok (Json.obj [("foo", Json.num 1)]))
      = mkErr "Could not find voting results in the data" :=
  c8_missing_keys_fixed_error exPn "example title" exCatBody (Json.bool true)
    (Json.str "http://example/detail.json") [exResource] exResource
    (Json.obj [("foo", Json.num 1)]) rfl rfl rfl rfl rfl rfl rfl rfl

/-- A successfully built summary carries the titles dictionary it was
built from, and its title is the English entry, else the German entry,
else the sentinel. -/
theorem summaryFields_shape (vr vi nr : Json) (titles : List (Json × Json))
    (sd : SummaryData) (h : summaryFields vr vi nr titles = Except.ok sd) :
    sd.all_titles = titles ∧
    sd.title = dictGet titles (Json.str "en")
      (dictGet titles (Json.str "de") (Json.str "Title not available")) := by
  unfold summaryFields at h
  repeat' split at h
  all_goals cases h
  all_goals exact ⟨rfl, rfl⟩

/-- A summary can only come out of `extractPhase` through a successful
`extractPieces` and a successful `summaryFields` on its titles. -/
theorem extractPhase_summary_shape (vr : Json) (sd : SummaryData)
    (h : (extractPhase vr).summary = some sd) :
    ∃ vi nr, extractPieces vr = Except.ok (vi, nr, sd.all_titles) ∧
      summaryFields vr vi nr sd.all_titles = Except.ok sd := by
  unfold extractPhase at h
  cases hv : voteKeysCheck vr with
  | error e => simp [hv, mkErr] at h
  | ok b =>
    cases b with
    | false => simp [hv, mkErr] at h
    | true =>
      simp only [hv] at h
      cases hp : extractPieces vr with
      | error e => simp [hp, mkErr] at h
      | ok trip =>
        obtain ⟨vi, nr, titles⟩ := trip
        simp only [hp] at h
        cases hsf : summaryFields vr vi nr titles with
        | error e => simp [hsf] at h
        | ok sd2 =>
          simp only [hsf, Option.some.injEq] at h
          subst h
          have hs := summaryFields_shape vr vi nr titles sd2 hsf
          refine ⟨vi, nr, ?_⟩
          rw [hs.1]
          exact ⟨rfl, hsf⟩

/-- A summary can only come out of `get_voting_summary` when the detail
response decoded to a payload on which `extractPhase` produced it. -/
theorem summary_some_reaches (pn : String) (catResp detResp : HttpOutcome)
    (sd : SummaryData)
    (h : (get_voting_summary pn catResp detResp).summary = some sd) :
    ∃ vr, detResp = HttpOutcome.ok vr ∧ (extractPhase vr).summary = some sd := by
  unfold get_voting_summary afterMatch at h
  repeat' split at h
  all_goals first
    | simp [mkErr] at h
    | exact ⟨_, rfl, h⟩

/-- C9: for every successful resolution, the summary title is the
English entry of the titles dictionary when present, else the German
entry, else the sentinel "Title not available"; on the concrete example
(titles `en`: "Example", `de`: "Beispiel") the title is "Example". -/
theorem c9_title_preference :
    (∀ (pn : String) (catResp detResp : HttpOutcome) (sd : SummaryData),
      (get_voting_summary pn catResp detResp).summary = some sd →
      sd.title = dictGet sd.all_titles (Json.str "en")
        (dictGet sd.all_titles (Json.str "de") (Json.str "Title not available"))) ∧
    (get_voting_summary exPn (HttpOutcome.ok exCatBody)
        (HttpOutcome.ok exDetailGood)).summary = some exSummary ∧
    exSummary.title = Json.str "Example" ∧
    exSummary.all_titles
      = [(Json.str "en", Json.str "Example"), (Json.str "de", Json.str "Beispiel")] := by
  refine ⟨?_, rfl, rfl, rfl⟩
  intro pn catResp detResp sd h
  obtain ⟨vr, _, h2⟩ := summary_some_reaches pn catResp detResp sd h
  obtain ⟨vi, nr, _, hsf⟩ := extractPhase_summary_shape vr sd h2
  exact (summaryFields_shape vr vi nr sd.all_titles sd hsf).2

/-- Witness for C9 at the concrete example resolution. -/
theorem c9_title_preference_witness :
    exSummary.title = dictGet exSummary.all_titles (Json.str "en")
      (dictGet exSummary.all_titles (Json.str "de") (Json.str "Title not available")) :=
  c9_title_preference.1 exPn (HttpOutcome.ok exCatBody) (HttpOutcome.ok exDetailGood)
    exSummary rfl

/-- Inserting into the titles dictionary never produces an empty
dictionary. -/
theorem dictUpsert_ne_nil (kvs : List (Json × Json)) (k v : Json) :
    dictUpsert kvs k v ≠ [] := by
  unfold dictUpsert
  split
  · intro hmap
    rename_i hc
    simp only [List.map_eq_nil_iff] at hmap
    subst hmap
    simp at hc
  · simp

/-- The dictionary comprehension keeps a non-empty accumulator
non-empty. -/
theorem buildTitles_preserve : ∀ (ts : List Json) (acc res : List (Json × Json)),
    acc ≠ [] → buildTitles ts acc = Except.ok res → res ≠ [] := by
  intro ts
  induction ts with
  | nil =>
    intro acc res hacc h
    simp only [buildTitles, Except.ok.injEq] at h
    rw [← h]
    exact hacc
  | cons t rest ih =>
    intro acc res hacc h
    simp only [buildTitles] at h
    cases hk : t.getItem "langKey" with
    | error e => simp [hk] at h
    | ok k =>
      simp only [hk] at h
      cases hv : t.getItem "text" with
      | error e => simp [hv] at h
      | ok v =>
        simp only [hv] at h
        exact ih (dictUpsert acc k v) res (dictUpsert_ne_nil acc k v) h

/-- A successful dictionary comprehension over a non-empty title list
yields a non-empty dictionary. -/
theorem buildTitles_cons_ne (t : Json) (ts : List Json) (res : List (Json × Json))
    (h : buildTitles (t :: ts) [] = Except.ok res) : res ≠ [] := by
  simp only [buildTitles] at h
  cases hk : t.getItem "langKey" with
  | error e => simp [hk] at h
  | ok k =>
    simp only [hk] at h
    cases hv : t.getItem "text" with
    | error e => simp [hv] at h
    | ok v =>
      simp only [hv] at h
      exact buildTitles_preserve ts (dictUpsert [] k v) res (dictUpsert_ne_nil [] k v) h

/-- The titles dictionary of a successful extraction is built from the
payload title list reached by `sourceTitles`. -/
theorem extractPieces_titles (vr vi nr : Json) (titles : List (Json × Json))
    (h : extractPieces vr = Except.ok (vi, nr, titles)) :
    ∃ ts, sourceTitles vr = Except.ok ts ∧ buildTitles ts [] = Except.ok titles := by
  unfold extractPieces at h
  cases h1 : Json.getItem vr "schweiz" with
  | error e => simp [h1] at h
  | ok s =>
    simp only [h1] at h
    cases h2 : Json.getItem s "vorlagen" with
    | error e => simp [h2] at h
    | ok vl =>
      simp only [h2] at h
      cases h3 : pyIndexZero vl with
      | error e => simp [h3] at h
      | ok vi2 =>
        simp only [h3] at h
        cases h4 : Json.getItem vi2 "resultat" with
        | error e => simp [h4] at h
        | ok nr2 =>
          simp only [h4] at h
          cases h5 : Json.getItem vi2 "vorlagenTitel" with
          | error e => simp [h5] at h
          | ok tl =>
            simp only [h5] at h
            cases h6 : iterElems tl with
            | error e => simp [h6] at h
            | ok ts =>
              simp only [h6] at h
              cases h7 : buildTitles ts [] with
              | error e => simp [h7] at h
              | ok titles2 =>
                simp only [h7, Except.ok.injEq, Prod.mk.injEq] at h
                obtain ⟨-, -, h10⟩ := h
                subst h10
                refine ⟨ts, ?_, h7⟩
                simp [sourceTitles, h1, h2, h3, h5, h6]

/-- C4 (amended): `titles_by_lang` (`all_titles`) is non-empty whenever
`success` is true and the matched detail payload offers a non-empty
`vorlagenTitel` list; when that source list is empty the resolution
still succeeds, with an empty `all_titles` (see the counterexample). -/
theorem c4_titles_nonempty_amended (pn : String) (catResp : HttpOutcome) (vr : Json)
    (sd : SummaryData) (t0 : Json) (ts : List Json)
    (h : (get_voting_summary pn catResp (HttpOutcome.ok vr)).summary = some sd)
    (hts : sourceTitles vr = Except.ok (t0 :: ts)) :
    sd.all_titles ≠ [] := by
  obtain ⟨vr2, heq, h2⟩ := summary_some_reaches pn catResp (HttpOutcome.ok vr) sd h
  injection heq with heq2
  subst heq2
  obtain ⟨vi, nr, hp, -⟩ := extractPhase_summary_shape vr sd h2
  obtain ⟨ts2, hts2, hbt⟩ := extractPieces_titles vr vi nr sd.all_titles hp
  rw [hts] at hts2
  injection hts2 with hts3
  rw [← hts3] at hbt
  exact buildTitles_cons_ne t0 ts sd.all_titles hbt

/-- C4 counterexample: a successful resolution over a detail payload
with an empty `vorlagenTitel` list returns `success = true` with an
empty `all_titles` mapping — the invariant as claimed is false. -/
theorem c4_titles_nonempty_counterexample :
    (get_voting_summary exPn (HttpOutcome.ok exCatBody)
        (HttpOutcome.ok exDetailNoTitles)).success = true ∧
    Option.map SummaryData.all_titles
      (get_voting_summary exPn (HttpOutcome.ok exCatBody)
        (HttpOutcome.ok exDetailNoTitles)).summary = some [] := ⟨rfl, rfl⟩

/-- Witness for the amended C4 at the example resolution with two
source titles. -/
theorem c4_titles_nonempty_amended_witness :
    exSummary.all_titles ≠ [] :=
  c4_titles_nonempty_amended exPn (HttpOutcome.ok exCatBody) exDetailGood exSummary
    (Json.obj [("langKey", Json.str "en"), ("text", Json.str "Example")])
    [Json.obj [("langKey", Json.str "de"), ("text", Json.str "Beispiel")]]
    rfl rfl
